import Mathlib

/-!
Shallow embedding of the HIDROCONTROL irrigation-valve service
(`src/main.py`, a Flask JSON API). The system state is a mapping
`block id -> valve number -> valve record`; the Python code keeps it as
nested `dict`s (insertion ordered), which we embed as association lists.
HTTP handlers become pure functions from the current state and the
decoded request to a response value plus the new state; the file-write
step (`guardar_estados`) is modelled by a boolean outcome parameter plus
an explicit record of the states passed to it.
-/

/-- A stored schedule (`programacion`): the pair of wall-clock strings
`{"on": hora_on, "off": hora_off}` stored by `set_programacion` (the JSON
keys are `"on"` and `"off"`; `on` is reserved in Lean, so the fields carry
the handler's local variable names). -/
structure Programacion where
  hora_on : String
  hora_off : String
deriving DecidableEq

/-- One valve record as kept in `estados_globales[block][num]`: an
`estado` string, an optional `programacion`, and the optional
`ultima_actualizacion` timestamp key (absent in the default state,
added by the single-valve mutating handlers). -/
structure Valvula where
  estado : String
  programacion : Option Programacion
  ultima_actualizacion : Option String
deriving DecidableEq

/-- A block: the ordered mapping from valve-number strings to valve records. -/
abbrev Bloque := List (String × Valvula)

/-- The whole system state `estados_globales`: ordered mapping from block ids to blocks. -/
abbrev Estados := List (String × Bloque)

/-- Lookup in an ordered string-keyed mapping (Python `d[k]` / `k in d`). -/
def lookupK {α : Type} : List (String × α) → String → Option α
  | [], _ => none
  | (k', v) :: rest, k => if k' = k then some v else lookupK rest k

/-- Update the entry at an existing key in place, keeping insertion order
(Python `d[k] = f(d[k])` on a present key). Missing keys are untouched. -/
def updateK {α : Type} : List (String × α) → String → (α → α) → List (String × α)
  | [], _, _ => []
  | (k', v) :: rest, k, f => if k' = k then (k', f v) :: rest else (k', v) :: updateK rest k f

/-- The valve record stored for `(block_id, num)`:
`estados_globales[block_id][num]` when both keys exist. -/
def valvulaEn (s : Estados) (block_id num : String) : Option Valvula :=
  (lookupK s block_id).bind fun b => lookupK b num

/-- Python `clave.split('-')` on the character list: splits at every dash,
keeping empty pieces (`"a--b" -> ["a", "", "b"]`, `"" -> [""]`). -/
def splitDashChars : List Char → List (List Char)
  | [] => [[]]
  | c :: rest =>
    let r := splitDashChars rest
    if c = '-' then [] :: r
    else
      match r with
      | [] => [[c]]
      | h :: t => (c :: h) :: t

/-- Python `clave.split('-')`. -/
def splitDash (s : String) : List String :=
  (splitDashChars s.data).map String.mk

/-- Python `str.lower()` on one character (the ASCII fragment, which is all
the enum check in `set_valvula` relies on). -/
def lowerChar (c : Char) : Char :=
  if 65 ≤ c.toNat ∧ c.toNat ≤ 90 then Char.ofNat (c.toNat + 32) else c

/-- Python `str.lower()` (ASCII fragment). -/
def lowerStr (s : String) : String :=
  String.mk (s.data.map lowerChar)

/-- Default valve record from `cargar_estados`: `{"estado": "off", "programacion": None}`. -/
def valvulaDefecto : Valvula :=
  { estado := "off", programacion := none, ultima_actualizacion := none }

/-- Default block: valves `"1"` to `"5"`, all `valvulaDefecto`. -/
def bloqueDefecto : Bloque :=
  [("1", valvulaDefecto), ("2", valvulaDefecto), ("3", valvulaDefecto),
   ("4", valvulaDefecto), ("5", valvulaDefecto)]

/-- `estados_defecto` from `cargar_estados`: 3 blocks of 5 default valves. -/
def estadosDefecto : Estados :=
  [("block1", bloqueDefecto), ("block2", bloqueDefecto), ("block3", bloqueDefecto)]

/-- `guardar_estados`: serialize the state to `estados.json`. The `try`
around the file write makes the result `True` on success and `False` on an
I/O error (which is only printed); `writeOk` is the outcome of that write.
Every caller in `main.py` discards this boolean. -/
def guardar_estados (writeOk : Bool) (_estados : Estados) : Bool :=
  writeOk

/-- Result of a handler: the decoded response, the state left in
`estados_globales`, and the list of states passed to `guardar_estados`
during the request, in order. -/
structure Outcome (R : Type) where
  resp : R
  estados : Estados
  saves : List Estados
deriving DecidableEq

/-- `cargar_estados`: `file = some s` models `estados.json` existing and
parsing as the state `s`; `none` models a missing or unreadable file, in
which case the default state is built and immediately persisted. -/
def cargar_estados (file : Option Estados) : Outcome Unit :=
  match file with
  | some s => ⟨(), s, []⟩
  | none =>
    let _ := guardar_estados true estadosDefecto
    ⟨(), estadosDefecto, [estadosDefecto]⟩

/-- Responses of `GET /api/valvula/<block_id>/<int:num>` (`get_valvula`). -/
inductive GetValvulaResp where
  | bloqueNoExiste
  | valvulaNoExiste
  | ok (block_id : String) (num : Nat) (estado : String) (programacion : Option Programacion)
deriving DecidableEq

/-- HTTP status of a `get_valvula` response. -/
def statusGetValvula : GetValvulaResp → Nat
  | .bloqueNoExiste => 404
  | .valvulaNoExiste => 404
  | .ok _ _ _ _ => 200

/-- `get_valvula`: 404 on unknown block or valve, else the valve's
`estado` and `programacion` (plus a timestamp, not modelled). -/
def get_valvula (s : Estados) (block_id : String) (num : Nat) : GetValvulaResp :=
  match lookupK s block_id with
  | none => .bloqueNoExiste
  | some b =>
    match lookupK b (toString num) with
    | none => .valvulaNoExiste
    | some v => .ok block_id num v.estado v.programacion

/-- Responses of `POST /api/valvula/<block_id>/<int:num>` (`set_valvula`). -/
inductive SetValvulaResp where
  | bloqueNoExiste
  | valvulaNoExiste
  | sinDatos
  | estadoInvalido (estados_validos : List String)
  | ok (block_id : String) (num : Nat) (estado : String)
deriving DecidableEq

/-- HTTP status of a `set_valvula` response. -/
def statusSetValvula : SetValvulaResp → Nat
  | .bloqueNoExiste => 404
  | .valvulaNoExiste => 404
  | .sinDatos => 400
  | .estadoInvalido _ => 400
  | .ok _ _ _ => 200

/-- `set_valvula`: the request body decoded as
`datos = none` (no JSON body) or `some estadoField` where `estadoField`
is the body's optional `estado` string (`datos.get('estado', '')`).
`now` is `datetime.now(timezone.utc).isoformat()`; `writeOk` the file-write
outcome. -/
def set_valvula (s : Estados) (block_id : String) (num : Nat)
    (datos : Option (Option String)) (now : String) (writeOk : Bool) :
    Outcome SetValvulaResp :=
  match lookupK s block_id with
  | none => ⟨.bloqueNoExiste, s, []⟩
  | some b =>
    match lookupK b (toString num) with
    | none => ⟨.valvulaNoExiste, s, []⟩
    | some _ =>
      match datos with
      | none => ⟨.sinDatos, s, []⟩
      | some estadoField =>
        let nuevo_estado := lowerStr (estadoField.getD "")
        if nuevo_estado ∈ (["on", "off", "auto"] : List String) then
          let s' := updateK s block_id fun bb =>
            updateK bb (toString num) fun v =>
              { v with estado := nuevo_estado, ultima_actualizacion := some now }
          let _ := guardar_estados writeOk s'
          ⟨.ok block_id num nuevo_estado, s', [s']⟩
        else
          ⟨.estadoInvalido ["on", "off", "auto"], s, []⟩

/-- Decoded body of `set_programacion`: the optional `on` and `off` fields
(`datos.get('on')`, `datos.get('off')`). -/
structure DatosProgramacion where
  hora_on : Option String
  hora_off : Option String
deriving DecidableEq

/-- Responses of `POST /api/valvula/<block_id>/<int:num>/programacion`. -/
inductive SetProgResp where
  | bloqueNoExiste
  | valvulaNoExiste
  | sinDatos
  | faltanHoras
  | ok (block_id : String) (num : Nat) (programacion : Programacion)
deriving DecidableEq

/-- HTTP status of a `set_programacion` response. -/
def statusSetProg : SetProgResp → Nat
  | .bloqueNoExiste => 404
  | .valvulaNoExiste => 404
  | .sinDatos => 400
  | .faltanHoras => 400
  | .ok _ _ _ => 200

/-- `set_programacion`: store `{on, off}` as the schedule, force
`estado = "auto"`, stamp the timestamp, save. The `if not hora_on or not
hora_off` check treats a missing field and an empty string alike. -/
def set_programacion (s : Estados) (block_id : String) (num : Nat)
    (datos : Option DatosProgramacion) (now : String) (writeOk : Bool) :
    Outcome SetProgResp :=
  match lookupK s block_id with
  | none => ⟨.bloqueNoExiste, s, []⟩
  | some b =>
    match lookupK b (toString num) with
    | none => ⟨.valvulaNoExiste, s, []⟩
    | some _ =>
      match datos with
      | none => ⟨.sinDatos, s, []⟩
      | some d =>
        match d.hora_on, d.hora_off with
        | some hora_on, some hora_off =>
          if hora_on = "" ∨ hora_off = "" then ⟨.faltanHoras, s, []⟩
          else
            let s' := updateK s block_id fun bb =>
              updateK bb (toString num) fun v =>
                { v with programacion := some ⟨hora_on, hora_off⟩,
                         estado := "auto",
                         ultima_actualizacion := some now }
            let _ := guardar_estados writeOk s'
            ⟨.ok block_id num ⟨hora_on, hora_off⟩, s', [s']⟩
        | _, _ => ⟨.faltanHoras, s, []⟩

/-- Responses of `DELETE /api/valvula/<block_id>/<int:num>/programacion`. -/
inductive DeleteProgResp where
  | bloqueNoExiste
  | valvulaNoExiste
  | ok (block_id : String) (num : Nat)
deriving DecidableEq

/-- HTTP status of a `delete_programacion` response. -/
def statusDeleteProg : DeleteProgResp → Nat
  | .bloqueNoExiste => 404
  | .valvulaNoExiste => 404
  | .ok _ _ => 200

/-- `delete_programacion`: clear the schedule, force `estado = "off"`,
stamp the timestamp, save. No request body is read. -/
def delete_programacion (s : Estados) (block_id : String) (num : Nat)
    (now : String) (writeOk : Bool) : Outcome DeleteProgResp :=
  match lookupK s block_id with
  | none => ⟨.bloqueNoExiste, s, []⟩
  | some b =>
    match lookupK b (toString num) with
    | none => ⟨.valvulaNoExiste, s, []⟩
    | some _ =>
      let s' := updateK s block_id fun bb =>
        updateK bb (toString num) fun v =>
          { v with programacion := none,
                   estado := "off",
                   ultima_actualizacion := some now }
      let _ := guardar_estados writeOk s'
      ⟨.ok block_id num, s', [s']⟩

/-- `GET /api/estado-esp32` (`get_estado_esp32`): flatten the state to the
ordered list of pairs `("<block>-<num>", estado)`. -/
def get_estado_esp32 (s : Estados) : List (String × String) :=
  s.flatMap fun bp => bp.2.map fun vp => (bp.1 ++ "-" ++ vp.1, vp.2.estado)

/-- One iteration of the loop in `set_estado_esp32`: split the key at
dashes; when it has exactly two parts naming an existing block and valve,
overwrite that valve's `estado` field (nothing else); otherwise leave the
state untouched. -/
def aplicarEntrada (s : Estados) (clave estado : String) : Estados :=
  match splitDash clave with
  | [block_id, num] =>
    match lookupK s block_id with
    | some bloque =>
      match lookupK bloque num with
      | some _ => updateK s block_id fun bb => updateK bb num fun v => { v with estado := estado }
      | none => s
    | none => s
  | _ => s

/-- Responses of `POST /api/estado-esp32` (`set_estado_esp32`). -/
inductive EspResp where
  | ok
  | error500
deriving DecidableEq

/-- HTTP status of a `set_estado_esp32` response. -/
def statusEsp : EspResp → Nat
  | .ok => 200
  | .error500 => 500

/-- `set_estado_esp32`: `datos = none` models a request with no JSON body
(`datos.get` then raises, caught as a 500); `some valvulas` is the posted
`valvulas` mapping as an ordered list of `(clave, estado)` items. All
entries are applied in order, the state is saved once, and the response is
200. -/
def set_estado_esp32 (s : Estados) (datos : Option (List (String × String)))
    (writeOk : Bool) : Outcome EspResp :=
  match datos with
  | none => ⟨.error500, s, []⟩
  | some valvulas =>
    let s' := valvulas.foldl (fun acc p => aplicarEntrada acc p.1 p.2) s
    let _ := guardar_estados writeOk s'
    ⟨.ok, s', [s']⟩

/-- The state-enum check: `estado` is one of `"on"`, `"off"`, `"auto"`. -/
def estadoValidoB (e : String) : Bool :=
  e = "on" ∨ e = "off" ∨ e = "auto"

/-- The spec's enum invariant on a whole state: every stored valve's
`estado` is one of the three enum values. -/
def invEstadosB (s : Estados) : Bool :=
  s.all fun bp => bp.2.all fun vp => estadoValidoB vp.2.estado

/-- The fragment of JSON that `estados.json` uses: strings, `null`, and
order-preserving objects. `guardar_estados` writes the state with
`json.dump`; `cargar_estados` reads it back with `json.load`. -/
inductive J where
  | jstr (s : String)
  | jnull
  | jobj (fields : List (String × J))

/-- JSON form of a `programacion` value: `null` or `{"on": ..., "off": ...}`. -/
def encodeProg : Option Programacion → J
  | none => .jnull
  | some p => .jobj [("on", .jstr p.hora_on), ("off", .jstr p.hora_off)]

/-- JSON form of one valve record, with the `ultima_actualizacion` key
present exactly when the record carries a timestamp (Python only ever adds
that dict key on mutation). -/
def encodeValvula (v : Valvula) : J :=
  .jobj ([("estado", .jstr v.estado), ("programacion", encodeProg v.programacion)] ++
    match v.ultima_actualizacion with
    | none => []
    | some t => [("ultima_actualizacion", .jstr t)])

/-- JSON form of a block (`json.dump` keeps dict insertion order). -/
def encodeBloque (b : Bloque) : J :=
  .jobj (b.map fun p => (p.1, encodeValvula p.2))

/-- JSON document written by `guardar_estados`. -/
def encodeEstados (s : Estados) : J :=
  .jobj (s.map fun p => (p.1, encodeBloque p.2))

/-- Read a `programacion` value back from its JSON form. -/
def decodeProg : J → Option (Option Programacion)
  | .jnull => some none
  | .jobj [("on", .jstr a), ("off", .jstr b)] => some (some ⟨a, b⟩)
  | _ => none

/-- Read one valve record back from its JSON form. -/
def decodeValvula : J → Option Valvula
  | .jobj [("estado", .jstr e), ("programacion", pj)] =>
    (decodeProg pj).map fun p => ⟨e, p, none⟩
  | .jobj [("estado", .jstr e), ("programacion", pj), ("ultima_actualizacion", .jstr t)] =>
    (decodeProg pj).map fun p => ⟨e, p, some t⟩
  | _ => none

/-- Read a block's valve entries back from JSON object fields. -/
def decodeBloqueCampos : List (String × J) → Option Bloque
  | [] => some []
  | (k, j) :: rest =>
    match decodeValvula j, decodeBloqueCampos rest with
    | some v, some r => some ((k, v) :: r)
    | _, _ => none

/-- Read a block back from its JSON form. -/
def decodeBloque : J → Option Bloque
  | .jobj fs => decodeBloqueCampos fs
  | _ => none

/-- Read the block entries of the whole document. -/
def decodeEstadosCampos : List (String × J) → Option Estados
  | [] => some []
  | (k, j) :: rest =>
    match decodeBloque j, decodeEstadosCampos rest with
    | some b, some r => some ((k, b) :: r)
    | _, _ => none

/-- Read the whole persisted document back as a system state
(`json.load` of what `guardar_estados` wrote). -/
def decodeEstados : J → Option Estados
  | .jobj fs => decodeEstadosCampos fs
  | _ => none

/-! ## Helper lemmas on the ordered-map operations -/

theorem lookupK_updateK_self {α : Type} (l : List (String × α)) (k : String) (f : α → α) :
    lookupK (updateK l k f) k = (lookupK l k).map f := by
  induction l with
  | nil => rfl
  | cons p rest ih =>
    obtain ⟨k', v⟩ := p
    by_cases h : k' = k
    · simp [updateK, lookupK, h]
    · simp [updateK, lookupK, h, ih]

theorem lookupK_updateK_ne {α : Type} (l : List (String × α)) (k k' : String) (f : α → α)
    (h : k' ≠ k) : lookupK (updateK l k f) k' = lookupK l k' := by
  induction l with
  | nil => rfl
  | cons p rest ih =>
    obtain ⟨k0, v⟩ := p
    by_cases h0 : k0 = k
    · subst h0
      have h1 : k0 ≠ k' := fun hh => h (hh ▸ rfl)
      simp [updateK, lookupK, h1]
    · by_cases h1 : k0 = k'
      · simp [updateK, lookupK, h0, h1, h]
      · simp [updateK, lookupK, h0, h1, ih]

theorem all_updateK {α : Type} (p : α → Bool) (l : List (String × α)) (k : String) (f : α → α)
    (hl : l.all (fun q => p q.2) = true) (hf : ∀ v, p v = true → p (f v) = true) :
    (updateK l k f).all (fun q => p q.2) = true := by
  induction l with
  | nil => exact hl
  | cons q rest ih =>
    obtain ⟨k0, v⟩ := q
    simp only [List.all_cons, Bool.and_eq_true] at hl
    by_cases h0 : k0 = k
    · simp [updateK, h0, hf v hl.1, hl.2]
    · simp [updateK, h0, hl.1, ih hl.2]

theorem valvulaEn_update_self (s : Estados) (bid num : String) (g : Valvula → Valvula) :
    valvulaEn (updateK s bid fun b => updateK b num g) bid num
      = (valvulaEn s bid num).map g := by
  unfold valvulaEn
  rw [lookupK_updateK_self]
  cases lookupK s bid with
  | none => rfl
  | some b => simp [lookupK_updateK_self]

theorem valvulaEn_update_ne (s : Estados) (bid num : String) (g : Valvula → Valvula)
    (bid' num' : String) (h : ¬(bid' = bid ∧ num' = num)) :
    valvulaEn (updateK s bid fun b => updateK b num g) bid' num' = valvulaEn s bid' num' := by
  unfold valvulaEn
  by_cases hb : bid' = bid
  · subst hb
    rw [lookupK_updateK_self]
    cases lookupK s bid' with
    | none => rfl
    | some b =>
      have hn : num' ≠ num := fun hh => h ⟨rfl, hh⟩
      simp [lookupK_updateK_ne _ _ _ _ hn]
  · rw [lookupK_updateK_ne _ _ _ _ hb]

theorem invEstadosB_update (s : Estados) (bid num : String) (g : Valvula → Valvula)
    (hs : invEstadosB s = true)
    (hg : ∀ v, estadoValidoB v.estado = true → estadoValidoB (g v).estado = true) :
    invEstadosB (updateK s bid fun b => updateK b num g) = true := by
  unfold invEstadosB at *
  refine all_updateK (fun b => b.all fun vp => estadoValidoB vp.2.estado) s bid _ hs ?_
  intro b hb
  exact all_updateK (fun v => estadoValidoB v.estado) b num g hb hg

theorem estadoValidoB_of_mem (e : String) (h : e ∈ (["on", "off", "auto"] : List String)) :
    estadoValidoB e = true := by
  simp only [List.mem_cons, List.not_mem_nil, or_false] at h
  rcases h with rfl | rfl | rfl <;> rfl

theorem lowerStr_of_mem (e : String) (h : e ∈ (["on", "off", "auto"] : List String)) :
    lowerStr e = e := by
  simp only [List.mem_cons, List.not_mem_nil, or_false] at h
  rcases h with rfl | rfl | rfl <;> rfl

theorem valvulaEn_of_lookups (s : Estados) (bid num : String) (b : Bloque) (v : Valvula)
    (hb : lookupK s bid = some b) (hv : lookupK b num = some v) :
    valvulaEn s bid num = some v := by
  unfold valvulaEn
  rw [hb]
  simpa using hv

theorem valvulaEn_inv (s : Estados) (bid num : String) (h : valvulaEn s bid num ≠ none) :
    ∃ b v, lookupK s bid = some b ∧ lookupK b num = some v := by
  unfold valvulaEn at h
  cases hb : lookupK s bid with
  | none => rw [hb] at h; simp at h
  | some b =>
    rw [hb] at h
    simp only [Option.some_bind] at h
    cases hv : lookupK b num with
    | none => exact absurd hv h
    | some v => exact ⟨b, v, rfl, hv⟩

theorem get_valvula_of_valvulaEn (s : Estados) (bid : String) (n : Nat) (v : Valvula)
    (h : valvulaEn s bid (toString n) = some v) :
    get_valvula s bid n = GetValvulaResp.ok bid n v.estado v.programacion := by
  unfold valvulaEn at h
  unfold get_valvula
  cases hb : lookupK s bid with
  | none => rw [hb] at h; simp at h
  | some b =>
    rw [hb] at h
    simp only [Option.some_bind] at h
    dsimp only
    rw [h]

theorem set_valvula_estados_cases (s : Estados) (block_id : String) (num : Nat)
    (datos : Option (Option String)) (now : String) (writeOk : Bool) :
    (set_valvula s block_id num datos now writeOk).estados = s ∨
    ∃ e, estadoValidoB e = true ∧
      (set_valvula s block_id num datos now writeOk).estados
        = updateK s block_id fun bb => updateK bb (toString num) fun v =>
            { v with estado := e, ultima_actualizacion := some now } := by
  unfold set_valvula
  cases hb : lookupK s block_id with
  | none => exact Or.inl rfl
  | some b =>
    dsimp only
    cases hv : lookupK b (toString num) with
    | none => exact Or.inl rfl
    | some v0 =>
      dsimp only
      cases datos with
      | none => exact Or.inl rfl
      | some estadoField =>
        dsimp only
        by_cases hm : lowerStr (estadoField.getD "") ∈ (["on", "off", "auto"] : List String)
        · rw [if_pos hm]
          exact Or.inr ⟨lowerStr (estadoField.getD ""), estadoValidoB_of_mem _ hm, rfl⟩
        · rw [if_neg hm]
          exact Or.inl rfl

theorem set_programacion_estados_cases (s : Estados) (block_id : String) (num : Nat)
    (datos : Option DatosProgramacion) (now : String) (writeOk : Bool) :
    (set_programacion s block_id num datos now writeOk).estados = s ∨
    ∃ hon hoff,
      (set_programacion s block_id num datos now writeOk).estados
        = updateK s block_id fun bb => updateK bb (toString num) fun v =>
            { v with programacion := some ⟨hon, hoff⟩, estado := "auto",
                     ultima_actualizacion := some now } := by
  unfold set_programacion
  cases hb : lookupK s block_id with
  | none => exact Or.inl rfl
  | some b =>
    dsimp only
    cases hv : lookupK b (toString num) with
    | none => exact Or.inl rfl
    | some v0 =>
      dsimp only
      cases datos with
      | none => exact Or.inl rfl
      | some d =>
        dsimp only
        cases hdo : d.hora_on with
        | none => exact Or.inl rfl
        | some hon =>
          cases hdf : d.hora_off with
          | none => exact Or.inl rfl
          | some hoff =>
            dsimp only
            by_cases hvac : hon = "" ∨ hoff = ""
            · rw [if_pos hvac]
              exact Or.inl rfl
            · rw [if_neg hvac]
              exact Or.inr ⟨hon, hoff, rfl⟩

theorem delete_programacion_estados_cases (s : Estados) (block_id : String) (num : Nat)
    (now : String) (writeOk : Bool) :
    (delete_programacion s block_id num now writeOk).estados = s ∨
    (delete_programacion s block_id num now writeOk).estados
      = updateK s block_id fun bb => updateK bb (toString num) fun v =>
          { v with programacion := none, estado := "off",
                   ultima_actualizacion := some now } := by
  unfold delete_programacion
  cases hb : lookupK s block_id with
  | none => exact Or.inl rfl
  | some b =>
    dsimp only
    cases hv : lookupK b (toString num) with
    | none => exact Or.inl rfl
    | some v0 => exact Or.inr rfl

theorem decodeProg_encodeProg (p : Option Programacion) : decodeProg (encodeProg p) = some p := by
  cases p with
  | none => rfl
  | some q => rfl

theorem decodeValvula_encodeValvula (v : Valvula) :
    decodeValvula (encodeValvula v) = some v := by
  obtain ⟨e, p, u⟩ := v
  cases u with
  | none => simp [encodeValvula, decodeValvula, decodeProg_encodeProg]
  | some t => simp [encodeValvula, decodeValvula, decodeProg_encodeProg]

theorem decodeBloqueCampos_map (b : Bloque) :
    decodeBloqueCampos (b.map fun p => (p.1, encodeValvula p.2)) = some b := by
  induction b with
  | nil => rfl
  | cons p rest ih =>
    obtain ⟨k, v⟩ := p
    simp [decodeBloqueCampos, decodeValvula_encodeValvula, ih]

theorem decodeBloque_encodeBloque (b : Bloque) :
    decodeBloque (encodeBloque b) = some b :=
  decodeBloqueCampos_map b

theorem decodeEstadosCampos_map (s : Estados) :
    decodeEstadosCampos (s.map fun p => (p.1, encodeBloque p.2)) = some s := by
  induction s with
  | nil => rfl
  | cons p rest ih =>
    obtain ⟨k, b⟩ := p
    simp only [List.map_cons, decodeEstadosCampos, decodeBloque_encodeBloque, ih]

/-! ## Claim theorems -/

/-- C1 (counterexample): the claimed invariant "every valve's `estado` is
always one of on/off/auto under every API operation" fails: from the
default initial state, the device-report POST `set_estado_esp32` with body
`{"valvulas": {"block1-1": "maybe"}}` answers 200 and stores the string
`"maybe"` as the valve's `estado`. -/
theorem C1_contraejemplo_esp32 :
    invEstadosB estadosDefecto = true ∧
    (set_estado_esp32 estadosDefecto (some [("block1-1", "maybe")]) true).resp = EspResp.ok ∧
    valvulaEn (set_estado_esp32 estadosDefecto (some [("block1-1", "maybe")]) true).estados
        "block1" "1"
      = some { estado := "maybe", programacion := none, ultima_actualizacion := none } ∧
    invEstadosB (set_estado_esp32 estadosDefecto (some [("block1-1", "maybe")]) true).estados
      = false := by
  refine ⟨by decide, by decide, by decide, by decide⟩

/-- C1 (amended): the enum invariant holds for the default initial state
and is preserved by the validated operations — set valve state, set
schedule, clear schedule — but not by the device-report POST, which can
store arbitrary `estado` strings. -/
theorem C1_invariante_enum (s : Estados) (block_id : String) (num : Nat)
    (datos1 : Option (Option String)) (datos2 : Option DatosProgramacion)
    (now : String) (writeOk : Bool) (hs : invEstadosB s = true) :
    invEstadosB estadosDefecto = true ∧
    invEstadosB (set_valvula s block_id num datos1 now writeOk).estados = true ∧
    invEstadosB (set_programacion s block_id num datos2 now writeOk).estados = true ∧
    invEstadosB (delete_programacion s block_id num now writeOk).estados = true := by
  refine ⟨by decide, ?_, ?_, ?_⟩
  · rcases set_valvula_estados_cases s block_id num datos1 now writeOk with h | ⟨e, he, h⟩
    · rw [h]; exact hs
    · rw [h]
      exact invEstadosB_update s block_id (toString num) _ hs fun v _ => he
  · rcases set_programacion_estados_cases s block_id num datos2 now writeOk with h | ⟨hon, hoff, h⟩
    · rw [h]; exact hs
    · rw [h]
      exact invEstadosB_update s block_id (toString num) _ hs fun v _ => rfl
  · rcases delete_programacion_estados_cases s block_id num now writeOk with h | h
    · rw [h]; exact hs
    · rw [h]
      exact invEstadosB_update s block_id (toString num) _ hs fun v _ => rfl

/-- C1 (witness): the amended invariant theorem applied at a concrete input. -/
theorem C1_invariante_enum_witness :
    invEstadosB estadosDefecto = true ∧
    invEstadosB (set_valvula estadosDefecto "block1" 1 (some (some "ON")) "t" true).estados
      = true := by
  have h := C1_invariante_enum estadosDefecto "block1" 1 (some (some "ON"))
    (some ⟨some "06:00", some "18:00"⟩) "t" true (by decide)
  exact ⟨h.1, h.2.1⟩

/-- C2: posting an `estado` value that does not normalize into
{on, off, auto} to an existing valve answers 400 with the set of accepted
values and leaves the whole state (hence the valve's state and schedule)
unchanged; nothing is persisted. -/
theorem C2_estado_invalido (s : Estados) (block_id : String) (num : Nat) (e now : String)
    (writeOk : Bool) (hv : valvulaEn s block_id (toString num) ≠ none)
    (he : lowerStr e ∉ (["on", "off", "auto"] : List String)) :
    (set_valvula s block_id num (some (some e)) now writeOk).resp
        = SetValvulaResp.estadoInvalido ["on", "off", "auto"] ∧
    statusSetValvula (set_valvula s block_id num (some (some e)) now writeOk).resp = 400 ∧
    (set_valvula s block_id num (some (some e)) now writeOk).estados = s ∧
    (set_valvula s block_id num (some (some e)) now writeOk).saves = [] := by
  obtain ⟨b, v, hb, hvv⟩ := valvulaEn_inv s block_id (toString num) hv
  unfold set_valvula
  rw [hb]
  dsimp only
  rw [hvv]
  dsimp only
  simp only [Option.getD_some]
  rw [if_neg he]
  exact ⟨rfl, rfl, rfl, rfl⟩

/-- C2 (witness): posting `"maybe"` to valve 1 of block1 of the default state. -/
theorem C2_estado_invalido_witness :
    valvulaEn estadosDefecto "block1" (toString 1) ≠ none ∧
    lowerStr "maybe" ∉ (["on", "off", "auto"] : List String) ∧
    (set_valvula estadosDefecto "block1" 1 (some (some "maybe")) "t" true).resp
      = SetValvulaResp.estadoInvalido ["on", "off", "auto"] ∧
    (set_valvula estadosDefecto "block1" 1 (some (some "maybe")) "t" true).estados
      = estadosDefecto := by
  have h := C2_estado_invalido estadosDefecto "block1" 1 "maybe" "t" true (by decide) (by decide)
  exact ⟨by decide, by decide, h.1, h.2.2.1⟩

/-- C3: the outcome of every mutating handler — response, in-memory state,
and the states handed to the save step — is identical whether the file
write succeeds (`writeOk = true`) or fails (`writeOk = false`): the
mutation is kept in memory and the client is answered as if the save
succeeded, because every caller discards `guardar_estados`' result. -/
theorem C3_fallo_persistencia (s : Estados) (block_id : String) (num : Nat)
    (datos1 : Option (Option String)) (datos2 : Option DatosProgramacion)
    (datosEsp : Option (List (String × String))) (now : String) :
    set_valvula s block_id num datos1 now false
      = set_valvula s block_id num datos1 now true ∧
    set_programacion s block_id num datos2 now false
      = set_programacion s block_id num datos2 now true ∧
    delete_programacion s block_id num now false
      = delete_programacion s block_id num now true ∧
    set_estado_esp32 s datosEsp false = set_estado_esp32 s datosEsp true :=
  ⟨rfl, rfl, rfl, rfl⟩

/-- C4: the device-report POST answers 200 on every posted mapping and
persists exactly once, after all entries; an entry whose key splits into
two dash-separated parts naming an existing valve overwrites that valve's
`estado` only (schedule and `ultima_actualizacion` untouched, all other
valves untouched); entries with unknown or malformed keys leave the state
unchanged. -/
theorem C4_reporte_esp32 (s : Estados) (valvulas : List (String × String)) (writeOk : Bool) :
    (set_estado_esp32 s (some valvulas) writeOk).resp = EspResp.ok ∧
    statusEsp (set_estado_esp32 s (some valvulas) writeOk).resp = 200 ∧
    (set_estado_esp32 s (some valvulas) writeOk).saves
      = [(set_estado_esp32 s (some valvulas) writeOk).estados] ∧
    (set_estado_esp32 s (some valvulas) writeOk).estados
      = valvulas.foldl (fun acc p => aplicarEntrada acc p.1 p.2) s ∧
    (∀ t clave bid nm e v, splitDash clave = [bid, nm] → valvulaEn t bid nm = some v →
      valvulaEn (aplicarEntrada t clave e) bid nm = some { v with estado := e } ∧
      ∀ bid' nm', ¬(bid' = bid ∧ nm' = nm) →
        valvulaEn (aplicarEntrada t clave e) bid' nm' = valvulaEn t bid' nm') ∧
    (∀ t clave bid nm e, splitDash clave = [bid, nm] → valvulaEn t bid nm = none →
      aplicarEntrada t clave e = t) ∧
    (∀ t clave e, (splitDash clave).length ≠ 2 → aplicarEntrada t clave e = t) := by
  refine ⟨rfl, rfl, rfl, rfl, ?_, ?_, ?_⟩
  · intro t clave bid nm e v hsp hv
    unfold valvulaEn at hv
    unfold aplicarEntrada
    rw [hsp]
    dsimp only
    cases hb : lookupK t bid with
    | none => rw [hb] at hv; simp at hv
    | some b =>
      rw [hb] at hv
      simp only [Option.some_bind] at hv
      dsimp only
      rw [hv]
      dsimp only
      have hvE : valvulaEn t bid nm = some v := valvulaEn_of_lookups t bid nm b v hb hv
      constructor
      · rw [valvulaEn_update_self, hvE]
        rfl
      · intro bid' nm' hne
        exact valvulaEn_update_ne t bid nm _ bid' nm' hne
  · intro t clave bid nm e hsp hv
    unfold valvulaEn at hv
    unfold aplicarEntrada
    rw [hsp]
    dsimp only
    cases hb : lookupK t bid with
    | none => rfl
    | some b =>
      rw [hb] at hv
      simp only [Option.some_bind] at hv
      dsimp only
      rw [hv]
  · intro t clave e hlen
    unfold aplicarEntrada
    cases hsp : splitDash clave with
    | nil => rfl
    | cons a tl =>
      cases tl with
      | nil => rfl
      | cons b2 tl2 =>
        cases tl2 with
        | nil => exact absurd (by rw [hsp]; rfl) hlen
        | cons c tl3 => rfl

/-- C4 (witness): from the default state, a report carrying a valid key, an
unknown-block key and a malformed key applies exactly the valid entry. -/
theorem C4_reporte_esp32_witness :
    (set_estado_esp32 estadosDefecto
        (some [("block1-1", "on"), ("oops", "x"), ("block9-2", "y")]) true).resp
      = EspResp.ok ∧
    valvulaEn (aplicarEntrada estadosDefecto "block1-1" "on") "block1" "1"
      = some { estado := "on", programacion := none, ultima_actualizacion := none } ∧
    aplicarEntrada estadosDefecto "block9-2" "y" = estadosDefecto ∧
    aplicarEntrada estadosDefecto "oops" "x" = estadosDefecto := by
  have h := C4_reporte_esp32 estadosDefecto
    [("block1-1", "on"), ("oops", "x"), ("block9-2", "y")] true
  refine ⟨h.1, ?_, ?_, ?_⟩
  · exact (h.2.2.2.2.1 estadosDefecto "block1-1" "block1" "1" "on" valvulaDefecto
      (by decide) (by decide)).1
  · exact h.2.2.2.2.2.1 estadosDefecto "block9-2" "block9" "2" "y" (by decide) (by decide)
  · exact h.2.2.2.2.2.2 estadosDefecto "oops" "x" (by decide)

/-- C5: posting a schedule with non-empty `on` and `off` to an existing
valve answers 200 with the stored pair, stores it, and forces the valve's
state to auto: a subsequent GET returns state "auto" and the schedule. -/
theorem C5_programacion_fuerza_auto (s : Estados) (block_id : String) (num : Nat)
    (hora_on hora_off now : String) (writeOk : Bool)
    (hv : valvulaEn s block_id (toString num) ≠ none)
    (h1 : hora_on ≠ "") (h2 : hora_off ≠ "") :
    (set_programacion s block_id num (some ⟨some hora_on, some hora_off⟩) now writeOk).resp
        = SetProgResp.ok block_id num ⟨hora_on, hora_off⟩ ∧
    statusSetProg
        (set_programacion s block_id num (some ⟨some hora_on, some hora_off⟩) now writeOk).resp
      = 200 ∧
    get_valvula
        (set_programacion s block_id num (some ⟨some hora_on, some hora_off⟩) now writeOk).estados
        block_id num
      = GetValvulaResp.ok block_id num "auto" (some ⟨hora_on, hora_off⟩) := by
  obtain ⟨b, v, hb, hvv⟩ := valvulaEn_inv s block_id (toString num) hv
  have hcond : ¬(hora_on = "" ∨ hora_off = "") := by
    rintro (h | h)
    · exact h1 h
    · exact h2 h
  unfold set_programacion
  rw [hb]
  dsimp only
  rw [hvv]
  dsimp only
  rw [if_neg hcond]
  refine ⟨rfl, rfl, ?_⟩
  have hvE := valvulaEn_of_lookups s block_id (toString num) b v hb hvv
  have hnew : valvulaEn
      (updateK s block_id fun bb => updateK bb (toString num) fun vv =>
        { vv with programacion := some ⟨hora_on, hora_off⟩, estado := "auto",
                  ultima_actualizacion := some now })
      block_id (toString num)
      = some { v with programacion := some ⟨hora_on, hora_off⟩, estado := "auto",
                      ultima_actualizacion := some now } := by
    rw [valvulaEn_update_self, hvE]
    rfl
  exact get_valvula_of_valvulaEn _ _ _ _ hnew

/-- C5 (witness): scheduling 06:00-18:00 on valve 3 of block2. -/
theorem C5_programacion_fuerza_auto_witness :
    valvulaEn estadosDefecto "block2" (toString 3) ≠ none ∧
    ("06:00" : String) ≠ "" ∧ ("18:00" : String) ≠ "" ∧
    (set_programacion estadosDefecto "block2" 3
        (some ⟨some "06:00", some "18:00"⟩) "t" true).resp
      = SetProgResp.ok "block2" 3 ⟨"06:00", "18:00"⟩ ∧
    get_valvula (set_programacion estadosDefecto "block2" 3
        (some ⟨some "06:00", some "18:00"⟩) "t" true).estados "block2" 3
      = GetValvulaResp.ok "block2" 3 "auto" (some ⟨"06:00", "18:00"⟩) := by
  have h := C5_programacion_fuerza_auto estadosDefecto "block2" 3 "06:00" "18:00" "t" true
    (by decide) (by decide) (by decide)
  exact ⟨by decide, by decide, by decide, h.1, h.2.2⟩

/-- C6: clearing the schedule of an existing valve answers 200 and leaves
the valve with schedule none and state "off", whatever its prior state and
schedule were (the state is universally quantified). -/
theorem C6_borrar_programacion (s : Estados) (block_id : String) (num : Nat)
    (now : String) (writeOk : Bool)
    (hv : valvulaEn s block_id (toString num) ≠ none) :
    (delete_programacion s block_id num now writeOk).resp = DeleteProgResp.ok block_id num ∧
    statusDeleteProg (delete_programacion s block_id num now writeOk).resp = 200 ∧
    valvulaEn (delete_programacion s block_id num now writeOk).estados block_id (toString num)
      = some { estado := "off", programacion := none, ultima_actualizacion := some now } ∧
    get_valvula (delete_programacion s block_id num now writeOk).estados block_id num
      = GetValvulaResp.ok block_id num "off" none := by
  obtain ⟨b, v, hb, hvv⟩ := valvulaEn_inv s block_id (toString num) hv
  unfold delete_programacion
  rw [hb]
  dsimp only
  rw [hvv]
  dsimp only
  have hvE := valvulaEn_of_lookups s block_id (toString num) b v hb hvv
  have hnew : valvulaEn
      (updateK s block_id fun bb => updateK bb (toString num) fun vv =>
        { vv with programacion := none, estado := "off",
                  ultima_actualizacion := some now })
      block_id (toString num)
      = some { v with programacion := none, estado := "off",
                      ultima_actualizacion := some now } := by
    rw [valvulaEn_update_self, hvE]
    rfl
  refine ⟨rfl, rfl, ?_, ?_⟩
  · exact hnew
  · exact get_valvula_of_valvulaEn _ _ _ _ hnew

/-- C6 (witness): clearing the schedule of valve 5 of block3 after first
scheduling it, so the prior state is not "off". -/
theorem C6_borrar_programacion_witness :
    valvulaEn (set_programacion estadosDefecto "block3" 5
        (some ⟨some "06:00", some "18:00"⟩) "t0" true).estados "block3" (toString 5) ≠ none ∧
    valvulaEn (delete_programacion (set_programacion estadosDefecto "block3" 5
        (some ⟨some "06:00", some "18:00"⟩) "t0" true).estados "block3" 5 "t1" true).estados
        "block3" (toString 5)
      = some { estado := "off", programacion := none, ultima_actualizacion := some "t1" } := by
  have h := C6_borrar_programacion (set_programacion estadosDefecto "block3" 5
    (some ⟨some "06:00", some "18:00"⟩) "t0" true).estados "block3" 5 "t1" true (by decide)
  exact ⟨by decide, h.2.2.1⟩

/-- C7: for block ids in {block1, block2, block3}, valve numbers in 1..5
and states in {on, off, auto}, a POST of state `e` to an existing valve
succeeds and a subsequent GET of that valve returns state `e`. -/
theorem C7_get_tras_post (s : Estados) (block_id : String) (num : Nat) (e now : String)
    (writeOk : Bool)
    (_hb3 : block_id ∈ ["block1", "block2", "block3"])
    (_hn5 : num ∈ [1, 2, 3, 4, 5])
    (he : e ∈ (["on", "off", "auto"] : List String))
    (hv : valvulaEn s block_id (toString num) ≠ none) :
    (set_valvula s block_id num (some (some e)) now writeOk).resp
      = SetValvulaResp.ok block_id num e ∧
    ∃ p, get_valvula (set_valvula s block_id num (some (some e)) now writeOk).estados
        block_id num
      = GetValvulaResp.ok block_id num e p := by
  obtain ⟨b, v, hb, hvv⟩ := valvulaEn_inv s block_id (toString num) hv
  have hle : lowerStr e = e := lowerStr_of_mem e he
  unfold set_valvula
  rw [hb]
  dsimp only
  rw [hvv]
  dsimp only
  simp only [Option.getD_some]
  rw [hle, if_pos he]
  refine ⟨rfl, v.programacion, ?_⟩
  have hvE := valvulaEn_of_lookups s block_id (toString num) b v hb hvv
  have hnew : valvulaEn
      (updateK s block_id fun bb => updateK bb (toString num) fun vv =>
        { vv with estado := e, ultima_actualizacion := some now })
      block_id (toString num)
      = some { v with estado := e, ultima_actualizacion := some now } := by
    rw [valvulaEn_update_self, hvE]
    rfl
  exact get_valvula_of_valvulaEn _ _ _ _ hnew

/-- C7 (witness): posting "auto" to valve 1 of block1 of the default state. -/
theorem C7_get_tras_post_witness :
    ("block1" : String) ∈ ["block1", "block2", "block3"] ∧
    (1 : Nat) ∈ [1, 2, 3, 4, 5] ∧
    ("auto" : String) ∈ (["on", "off", "auto"] : List String) ∧
    valvulaEn estadosDefecto "block1" (toString 1) ≠ none ∧
    (set_valvula estadosDefecto "block1" 1 (some (some "auto")) "t" true).resp
      = SetValvulaResp.ok "block1" 1 "auto" := by
  have h := C7_get_tras_post estadosDefecto "block1" 1 "auto" "t" true
    (by decide) (by decide) (by decide) (by decide)
  exact ⟨by decide, by decide, by decide, by decide, h.1⟩

/-- C8: round-trip fidelity of persistence: the JSON document that
`guardar_estados` writes for a state decodes back to exactly that state,
and `cargar_estados` on a file holding a state returns it unchanged. -/
theorem C8_guardar_luego_cargar (s : Estados) :
    decodeEstados (encodeEstados s) = some s ∧
    (cargar_estados (some s)).estados = s :=
  ⟨decodeEstadosCampos_map s, rfl⟩

/-- C9: on the fresh-start default configuration (no state file), the flat
device view has exactly the 15 keys `block{1,2,3}-{1..5}` in order, each
mapped to the corresponding valve's current state (all "off"), and looking
any of the 15 keys up in the view agrees with the stored valve state. -/
theorem C9_vista_plana_defecto :
    (cargar_estados none).estados = estadosDefecto ∧
    get_estado_esp32 estadosDefecto =
      [("block1-1", "off"), ("block1-2", "off"), ("block1-3", "off"),
       ("block1-4", "off"), ("block1-5", "off"),
       ("block2-1", "off"), ("block2-2", "off"), ("block2-3", "off"),
       ("block2-4", "off"), ("block2-5", "off"),
       ("block3-1", "off"), ("block3-2", "off"), ("block3-3", "off"),
       ("block3-4", "off"), ("block3-5", "off")] ∧
    (get_estado_esp32 estadosDefecto).length = 15 ∧
    (["block1", "block2", "block3"].all fun bid =>
      ["1", "2", "3", "4", "5"].all fun nm =>
        lookupK (get_estado_esp32 estadosDefecto) (bid ++ "-" ++ nm)
          == (valvulaEn estadosDefecto bid nm).map Valvula.estado) = true := by
  refine ⟨rfl, by decide, by decide, by decide⟩

/-- C10: each single-valve mutating operation leaves every valve other
than the addressed one — its state, schedule and last-updated stamp —
exactly as it was. -/
theorem C10_marco_otras_valvulas (s : Estados) (block_id : String) (num : Nat)
    (datos1 : Option (Option String)) (datos2 : Option DatosProgramacion)
    (now : String) (writeOk : Bool) (bid' num' : String)
    (h : ¬(bid' = block_id ∧ num' = toString num)) :
    valvulaEn (set_valvula s block_id num datos1 now writeOk).estados bid' num'
        = valvulaEn s bid' num' ∧
    valvulaEn (set_programacion s block_id num datos2 now writeOk).estados bid' num'
        = valvulaEn s bid' num' ∧
    valvulaEn (delete_programacion s block_id num now writeOk).estados bid' num'
        = valvulaEn s bid' num' := by
  refine ⟨?_, ?_, ?_⟩
  · rcases set_valvula_estados_cases s block_id num datos1 now writeOk with hE | ⟨e, -, hE⟩ <;>
      rw [hE]
    exact valvulaEn_update_ne s block_id (toString num) _ bid' num' h
  · rcases set_programacion_estados_cases s block_id num datos2 now writeOk with
      hE | ⟨hon, hoff, hE⟩ <;> rw [hE]
    exact valvulaEn_update_ne s block_id (toString num) _ bid' num' h
  · rcases delete_programacion_estados_cases s block_id num now writeOk with hE | hE <;>
      rw [hE]
    exact valvulaEn_update_ne s block_id (toString num) _ bid' num' h

/-- C10 (witness): turning valve 1 of block1 on leaves valve 2 of block1
untouched. -/
theorem C10_marco_otras_valvulas_witness :
    ¬(("block1" : String) = "block1" ∧ ("2" : String) = toString 1) ∧
    valvulaEn (set_valvula estadosDefecto "block1" 1 (some (some "on")) "t" true).estados
        "block1" "2"
      = valvulaEn estadosDefecto "block1" "2" := by
  have h := C10_marco_otras_valvulas estadosDefecto "block1" 1 (some (some "on"))
    (some ⟨some "06:00", some "18:00"⟩) "t" true "block1" "2" (by decide)
  exact ⟨by decide, h.1⟩
